import Mathlib

/-!
Verification development for the Jira employee-performance report scripts
(`main.py`, `1stJuly2025.py`, `25thJuly2025.py`).

Python strings are embedded as `List Char` (`PyStr`), `datetime` values as
`PyDateTime`, dictionary rows as functions `String → Option Value`, and code
that can raise an exception as `Except Unit` or `Option` valued functions.
The four `datetime.strptime` format strings used by the scripts are embedded
by explicit recursive descent over the character list, following CPython's
`_strptime` field patterns (two-digit fields also accept the one-digit form,
fractional seconds are 1–6 digits padded to microseconds, `%z` accepts
`±HHMM`, `±HH:MM` or `Z`); literals are matched on the canonical case.
-/

set_option autoImplicit false

/-- Python strings, embedded as lists of characters. -/
abbrev PyStr := List Char

/-- Python values that appear in a report row dictionary. -/
inductive Value where
  | str  (s : PyStr)
  | int  (n : Int)
  | bool (b : Bool)
  | none
deriving DecidableEq, Repr

/-- A report row: a Python dict from field names to values
(`Option.none` = key absent). -/
def Row := String → Option Value

/-- `row[k] = v` on a Python dict. -/
def setKey (t : Row) (k : String) (v : Value) : Row :=
  fun q => if q = k then some v else t q

/-- Python truthiness of an optional string (`None` and `''` are falsy). -/
def truthyStr (o : Option PyStr) : Bool :=
  match o with
  | Option.none => false
  | some s => decide (s ≠ [])

/-- Python truthiness of a row value. -/
def pyTruthy (v : Value) : Bool :=
  match v with
  | .str s => decide (s ≠ [])
  | .int n => decide (n ≠ 0)
  | .bool b => b
  | .none => false

/-- A naive-or-aware Python `datetime`: calendar fields plus an optional
UTC offset in minutes (`tzOffMin = none` models a naive datetime). -/
structure PyDateTime where
  year   : Nat
  month  : Nat
  day    : Nat
  hour   : Nat
  minute : Nat
  second : Nat
  usec   : Nat
  tzOffMin : Option Int
deriving DecidableEq, Repr

/-- Numeric value of a decimal digit character. -/
def digitVal (c : Char) : Option Nat :=
  if c.isDigit then some (c.toNat - 48) else Option.none

/-- `%Y`: exactly four digits. -/
def pY : List Char → Option (Nat × List Char)
  | a :: b :: c :: d :: rest =>
    match digitVal a, digitVal b, digitVal c, digitVal d with
    | some w, some x, some y, some z => some (((w * 10 + x) * 10 + y) * 10 + z, rest)
    | _, _, _, _ => Option.none
  | _ => Option.none

/-- A two-digit numeric field with a one-digit fallback, as in CPython's
`_strptime` patterns for `%m`, `%d`, `%H`, `%M`, `%S`: two digits are taken
when their value lies in `[lo2, hi2]`, otherwise a single digit with value in
`[lo1, 9]`. -/
def pNum2 (lo2 hi2 lo1 : Nat) : List Char → Option (Nat × List Char)
  | a :: b :: rest =>
    match digitVal a, digitVal b with
    | some x, some y =>
      if lo2 ≤ 10 * x + y ∧ 10 * x + y ≤ hi2 then some (10 * x + y, rest)
      else if lo1 ≤ x then some (x, b :: rest)
      else Option.none
    | some x, Option.none =>
      if lo1 ≤ x then some (x, b :: rest) else Option.none
    | _, _ => Option.none
  | [a] =>
    match digitVal a with
    | some x => if lo1 ≤ x then some (x, []) else Option.none
    | Option.none => Option.none
  | [] => Option.none

/-- A single literal character. -/
def lit (c : Char) : List Char → Option (List Char)
  | x :: rest => if x = c then some rest else Option.none
  | [] => Option.none

/-- Grab up to `n` leading digits. -/
def grabDigits : Nat → List Char → (List Nat × List Char)
  | 0, cs => ([], cs)
  | _ + 1, [] => ([], [])
  | n + 1, c :: cs =>
    match digitVal c with
    | some d =>
      let p := grabDigits n cs
      (d :: p.1, p.2)
    | Option.none => ([], c :: cs)

/-- `%f`: one to six digits, right-padded to microseconds. -/
def pFrac (cs : List Char) : Option (Nat × List Char) :=
  let p := grabDigits 6 cs
  if p.1 = [] then Option.none
  else some (p.1.foldl (fun a d => 10 * a + d) 0 * 10 ^ (6 - p.1.length), p.2)

/-- `%z`: `Z`, or a sign, two hour digits, an optional colon and two minute
digits; the resulting offset must be strictly less than 24 hours, as enforced
by Python's `timezone` constructor. Returns the offset in minutes. -/
def pTz : List Char → Option (Int × List Char)
  | 'Z' :: rest => some (0, rest)
  | sign :: h1 :: h2 :: rest =>
    if sign = '+' ∨ sign = '-' then
      match digitVal h1, digitVal h2 with
      | some a, some b =>
        let hh := 10 * a + b
        let rest2 := match rest with
          | ':' :: r => r
          | r => r
        match rest2 with
        | m1 :: m2 :: rest3 =>
          match digitVal m1, digitVal m2 with
          | some c, some d =>
            if c ≤ 5 ∧ hh * 60 + (10 * c + d) < 1440 then
              some ((if sign = '+' then (hh * 60 + (10 * c + d) : Int)
                     else -(hh * 60 + (10 * c + d) : Int)), rest3)
            else Option.none
          | _, _ => Option.none
        | _ => Option.none
      | _, _ => Option.none
    else Option.none
  | _ => Option.none

/-- Leap year (Gregorian). -/
def isLeap (y : Nat) : Bool :=
  decide ((y % 4 = 0 ∧ y % 100 ≠ 0) ∨ y % 400 = 0)

/-- Number of days in a month. -/
def daysInMonth (y m : Nat) : Nat :=
  if m = 2 then (if isLeap y then 29 else 28)
  else if m = 4 ∨ m = 6 ∨ m = 9 ∨ m = 11 then 30
  else 31

/-- Validity check performed by the `datetime` constructor on the fields that
the field patterns do not already constrain. -/
def validYMD (y m d : Nat) : Bool :=
  decide (1 ≤ y ∧ y ≤ 9999 ∧ 1 ≤ d ∧ d ≤ daysInMonth y m)

/-- `%Y-%m-%d` prefix. -/
def pYMD (cs : List Char) : Option ((Nat × Nat × Nat) × List Char) :=
  (pY cs).bind fun yr =>
  (lit '-' yr.2).bind fun r2 =>
  (pNum2 1 12 1 r2).bind fun mr =>
  (lit '-' mr.2).bind fun r4 =>
  (pNum2 1 31 1 r4).bind fun dr =>
  some ((yr.1, mr.1, dr.1), dr.2)

/-- `%H:%M:%S` prefix. -/
def pHMS (cs : List Char) : Option ((Nat × Nat × Nat) × List Char) :=
  (pNum2 0 23 0 cs).bind fun hr =>
  (lit ':' hr.2).bind fun r2 =>
  (pNum2 0 59 0 r2).bind fun mr =>
  (lit ':' mr.2).bind fun r4 =>
  (pNum2 0 59 0 r4).bind fun sr =>
  some ((hr.1, mr.1, sr.1), sr.2)

/-- `datetime.strptime(s, '%Y-%m-%d')`: `none` models the `ValueError`. -/
def strptimeDate (s : PyStr) : Option PyDateTime :=
  (pYMD s).bind fun p =>
  if p.2 = [] ∧ validYMD p.1.1 p.1.2.1 p.1.2.2 then
    some ⟨p.1.1, p.1.2.1, p.1.2.2, 0, 0, 0, 0, Option.none⟩
  else Option.none

/-- `datetime.strptime(s, '%Y-%m-%dT%H:%M:%S')`. -/
def strptimeISO (s : PyStr) : Option PyDateTime :=
  (pYMD s).bind fun p =>
  (lit 'T' p.2).bind fun r =>
  (pHMS r).bind fun q =>
  if q.2 = [] ∧ validYMD p.1.1 p.1.2.1 p.1.2.2 then
    some ⟨p.1.1, p.1.2.1, p.1.2.2, q.1.1, q.1.2.1, q.1.2.2, 0, Option.none⟩
  else Option.none

/-- `datetime.strptime(s, '%Y-%m-%dT%H:%M:%S.%fZ')` (naive result). -/
def strptimeISOfZ (s : PyStr) : Option PyDateTime :=
  (pYMD s).bind fun p =>
  (lit 'T' p.2).bind fun r =>
  (pHMS r).bind fun q =>
  (lit '.' q.2).bind fun r2 =>
  (pFrac r2).bind fun fr =>
  if fr.2 = ['Z'] ∧ validYMD p.1.1 p.1.2.1 p.1.2.2 then
    some ⟨p.1.1, p.1.2.1, p.1.2.2, q.1.1, q.1.2.1, q.1.2.2, fr.1, Option.none⟩
  else Option.none

/-- `datetime.strptime(s, '%Y-%m-%dT%H:%M:%S.%f%z')` (aware result). -/
def strptimeISOfz (s : PyStr) : Option PyDateTime :=
  (pYMD s).bind fun p =>
  (lit 'T' p.2).bind fun r =>
  (pHMS r).bind fun q =>
  (lit '.' q.2).bind fun r2 =>
  (pFrac r2).bind fun fr =>
  (pTz fr.2).bind fun tz =>
  if tz.2 = [] ∧ validYMD p.1.1 p.1.2.1 p.1.2.2 then
    some ⟨p.1.1, p.1.2.1, p.1.2.2, q.1.1, q.1.2.1, q.1.2.2, fr.1, some tz.1⟩
  else Option.none

/-- Days since 0000-03-01 in the proleptic Gregorian calendar
(only differences of this quantity are ever used). -/
def daysFromCivil (y m d : Nat) : Nat :=
  let yy := if m ≤ 2 then y - 1 else y
  let era := yy / 400
  let yoe := yy % 400
  let mp := (m + 9) % 12
  let doy := (153 * mp + 2) / 5 + (d - 1)
  let doe := yoe * 365 + yoe / 4 - yoe / 100 + doy
  era * 146097 + doe

/-- The instant of a datetime ignoring its offset, in microseconds. -/
def microsNaive (dt : PyDateTime) : Int :=
  ((daysFromCivil dt.year dt.month dt.day * 86400000000
    + (dt.hour * 3600 + dt.minute * 60 + dt.second) * 1000000 + dt.usec : Nat) : Int)

/-- Python datetime subtraction in microseconds: naive−naive and aware−aware
are defined (aware operands are shifted to UTC); mixing a naive and an aware
operand raises `TypeError`, modelled as `Option.none`. -/
def dtSub (a b : PyDateTime) : Option Int :=
  match a.tzOffMin, b.tzOffMin with
  | Option.none, Option.none => some (microsNaive a - microsNaive b)
  | some ta, some tb =>
    some ((microsNaive a - ta * 60000000) - (microsNaive b - tb * 60000000))
  | _, _ => Option.none

/-- Python `a <= b` on datetimes (raises on naive/aware mixing). -/
def dtLe (a b : PyDateTime) : Option Bool :=
  (dtSub a b).map (fun d => decide (d ≤ 0))

/-- `timedelta.days`: whole days, floored toward minus infinity. -/
def daysOf (deltaUs : Int) : Int :=
  Int.fdiv deltaUs 86400000000

/-- `date_str.count(':')`. -/
def countColons (s : PyStr) : Nat := s.count ':'

/-- `date_str.endswith('Z')`. -/
def endsWithZ (s : PyStr) : Bool :=
  match s.getLast? with
  | some 'Z' => true
  | _ => false

/-- `dt.replace(tzinfo=None)`. -/
def stripTz (dt : PyDateTime) : PyDateTime :=
  { dt with tzOffMin := Option.none }

/-- `parse_jira_date` of `25thJuly2025.py`: dispatch on the shape of the
string, parse with the matching format, and strip the timezone in the
offset branch; any `ValueError` is caught and becomes `None`. -/
def parse_jira_date25 (dateStr : Option PyStr) : Option PyDateTime :=
  match dateStr with
  | Option.none => Option.none
  | some s =>
    if s = [] then Option.none
    else if s.contains 'T' then
      if endsWithZ s then strptimeISOfZ s
      else if s.contains '+' || decide (countColons s > 2) then
        (strptimeISOfz s).map stripTz
      else strptimeISO s
    else strptimeDate s

/-- `parse_jira_date` of `1stJuly2025.py`: identical dispatch, but the
offset branch returns the aware datetime without stripping the timezone. -/
def parse_jira_date1 (dateStr : Option PyStr) : Option PyDateTime :=
  match dateStr with
  | Option.none => Option.none
  | some s =>
    if s = [] then Option.none
    else if s.contains 'T' then
      if endsWithZ s then strptimeISOfZ s
      else if s.contains '+' || decide (countColons s > 2) then
        strptimeISOfz s
      else strptimeISO s
    else strptimeDate s

/-- `digitChar n` is the decimal digit character for `n < 10`. -/
def digitChar (n : Nat) : Char := Char.ofNat (48 + n)

/-- Two-digit zero-padded decimal. -/
def pad2 (n : Nat) : PyStr := [digitChar (n / 10 % 10), digitChar (n % 10)]

/-- Four-digit zero-padded decimal. -/
def pad4 (n : Nat) : PyStr :=
  [digitChar (n / 1000 % 10), digitChar (n / 100 % 10),
   digitChar (n / 10 % 10), digitChar (n % 10)]

/-- `dt.date().isoformat()` for the years representable here. -/
def isoDate (dt : PyDateTime) : PyStr :=
  pad4 dt.year ++ '-' :: pad2 dt.month ++ '-' :: pad2 dt.day

/-- `format_date` of `25thJuly2025.py`. -/
def format_date25 (dateStr : Option PyStr) : PyStr :=
  match parse_jira_date25 dateStr with
  | some dt => isoDate dt
  | Option.none => []

/-- `format_date` of `1stJuly2025.py` (early return on falsy input, then
the same delegation to `parse_jira_date`). -/
def format_date1 (dateStr : Option PyStr) : PyStr :=
  match dateStr with
  | Option.none => []
  | some s =>
    if s = [] then []
    else
      match parse_jira_date1 (some s) with
      | some dt => isoDate dt
      | Option.none => []

/-- The character class removed by the `re.sub` call in `remove_emojis`. -/
def inEmojiRanges (c : Char) : Bool :=
  decide ((0x1F600 ≤ c.toNat ∧ c.toNat ≤ 0x1F64F) ∨
    (0x1F300 ≤ c.toNat ∧ c.toNat ≤ 0x1F5FF) ∨
    (0x1F680 ≤ c.toNat ∧ c.toNat ≤ 0x1F6FF) ∨
    (0x1F1E0 ≤ c.toNat ∧ c.toNat ≤ 0x1F1FF) ∨
    (0x2700 ≤ c.toNat ∧ c.toNat ≤ 0x27BF) ∨
    (0x1F900 ≤ c.toNat ∧ c.toNat ≤ 0x1F9FF) ∨
    (0x2600 ≤ c.toNat ∧ c.toNat ≤ 0x26FF))

/-- `remove_emojis` (identical in `1stJuly2025.py` and `25thJuly2025.py`):
falsy input gives `''`; otherwise the emoji character class is removed and
every remaining character with code point ≥ 128 is dropped. -/
def remove_emojis (text : Option PyStr) : PyStr :=
  match text with
  | Option.none => []
  | some s =>
    if s = [] then []
    else (s.filter (fun c => !(inEmojiRanges c))).filter (fun c => decide (c.toNat < 128))

/-- `(a - b).days if a and b else empty`: the guarded day-difference
assignment shared by all `compute_metrics` variants; `emptyV` is the value
used when an operand is missing (`''` in the July scripts, `None` in
`main.py`); a naive/aware mix propagates the `TypeError`. -/
def subDays (emptyV : Value) (a b : Option PyDateTime) : Except Unit Value :=
  match a, b with
  | some x, some y =>
    match dtSub x y with
    | some d => .ok (Value.int (daysOf d))
    | Option.none => .error ()
  | _, _ => .ok emptyV

/-- The `sla_met` expression of `25thJuly2025.py`:
`'Yes' if resolved and due and resolved <= due else 'No' if resolved and due else 'N/A'`. -/
def sla25 (resolved due : Option PyDateTime) : Except Unit Value :=
  match resolved, due with
  | some r, some d =>
    match dtLe r d with
    | some le => .ok (Value.str (if le then "Yes".data else "No".data))
    | Option.none => .error ()
  | _, _ => .ok (Value.str "N/A".data)

/-- The `sla_met` expression of `main.py`:
`'Yes' if resolved and due and resolved <= due else 'No'` — the final
else-branch is `'No'`, reached whenever the conjunction is falsy. -/
def slaMain (resolved due : Option PyDateTime) : Except Unit Value :=
  match resolved, due with
  | some r, some d =>
    match dtLe r d with
    | some le => .ok (Value.str (if le then "Yes".data else "No".data))
    | Option.none => .error ()
  | _, _ => .ok (Value.str "No".data)

/-- The `sla_met` branch of `1stJuly2025.py`: inside `if resolved and due`
the verdict is `'Yes'`/`'No'`; the else-branch is
`'N/A' if not due else 'N/A'`, i.e. always `'N/A'`. -/
def sla1 (resolved due : Option PyDateTime) : Except Unit Value :=
  match resolved, due with
  | some r, some d =>
    match dtLe r d with
    | some le => .ok (Value.str (if le then "Yes".data else "No".data))
    | Option.none => .error ()
  | _, _ => .ok (Value.str "N/A".data)

/-- The `try` body of `compute_metrics` in `25thJuly2025.py`: parse the three
raw strings (parse failures are already absorbed into `None` by
`parse_jira_date`), then evaluate the three metric expressions in order. -/
def body25 (rawCreated rawResolved rawDue : Option PyStr) :
    Except Unit (Value × Value × Value) := do
  let created := parse_jira_date25 rawCreated
  let resolved := parse_jira_date25 rawResolved
  let due := parse_jira_date25 rawDue
  let ttr ← subDays (Value.str []) resolved created
  let dd ← subDays (Value.str []) resolved due
  let sla ← sla25 resolved due
  pure (ttr, dd, sla)

/-- The `try` body of `compute_metrics` in `1stJuly2025.py`. -/
def body1 (rawCreated rawResolved rawDue : Option PyStr) :
    Except Unit (Value × Value × Value) := do
  let created := parse_jira_date1 rawCreated
  let resolved := parse_jira_date1 rawResolved
  let due := parse_jira_date1 rawDue
  let ttr ← subDays (Value.str []) resolved created
  let dd ← subDays (Value.str []) resolved due
  let sla ← sla1 resolved due
  pure (ttr, dd, sla)

/-- `compute_metrics(task, raw_created, raw_resolved, raw_due)` of
`25thJuly2025.py`: on success the three computed values are stored; the
`except` handler stores `''`, `''`, `'N/A'`. Partial writes before an
exception are overwritten by the handler, so storing at the end is
value-equivalent. -/
def compute_metrics_25 (task : Row) (rawCreated rawResolved rawDue : Option PyStr) : Row :=
  match body25 rawCreated rawResolved rawDue with
  | .ok v =>
    setKey (setKey (setKey task "time_to_resolve_days" v.1) "delay_days" v.2.1) "sla_met" v.2.2
  | .error _ =>
    setKey (setKey (setKey task "time_to_resolve_days" (Value.str []))
      "delay_days" (Value.str [])) "sla_met" (Value.str "N/A".data)

/-- `compute_metrics(task, raw_created, raw_resolved, raw_due)` of
`1stJuly2025.py` (same handler values as the 25thJuly variant). -/
def compute_metrics_1 (task : Row) (rawCreated rawResolved rawDue : Option PyStr) : Row :=
  match body1 rawCreated rawResolved rawDue with
  | .ok v =>
    setKey (setKey (setKey task "time_to_resolve_days" v.1) "delay_days" v.2.1) "sla_met" v.2.2
  | .error _ =>
    setKey (setKey (setKey task "time_to_resolve_days" (Value.str []))
      "delay_days" (Value.str [])) "sla_met" (Value.str "N/A".data)

/-- `datetime.strptime(value, fmt) if value else None` as executed by
`compute_metrics` in `main.py` on a dict value: a missing value is falsy →
`None`; a truthy string is parsed with `'%Y-%m-%dT%H:%M:%S.%f%z'` and a
`ValueError` escapes to the bare `except`; a truthy non-string raises. -/
def mainParse (v : Value) : Except Unit (Option PyDateTime) :=
  if pyTruthy v then
    match v with
    | .str s =>
      match strptimeISOfz s with
      | some dt => .ok (some dt)
      | Option.none => .error ()
    | _ => .error ()
  else .ok Option.none

/-- `task[k]` in `main.py`: a missing key raises `KeyError`, caught by the
bare `except`. -/
def readKey (task : Row) (k : String) : Except Unit Value :=
  match task k with
  | some v => .ok v
  | Option.none => .error ()

/-- One line `datetime.strptime(task[k], fmt) if task[k] else None` of
`main.py`: read the key, then parse the value. -/
def mainField (task : Row) (k : String) : Except Unit (Option PyDateTime) := do
  let v ← readKey task k
  mainParse v

/-- The `try` body of `compute_metrics` in `main.py`: read and parse the
three dates from the task dict itself, then evaluate the metric
expressions (missing operands give `None`, and the `sla_met` fallback is
`'No'`). -/
def bodyMain (task : Row) : Except Unit (Value × Value × Value) := do
  let created ← mainField task "created_date"
  let resolved ← mainField task "resolved_date"
  let due ← mainField task "due_date"
  let ttr ← subDays Value.none resolved created
  let dd ← subDays Value.none resolved due
  let sla ← slaMain resolved due
  pure (ttr, dd, sla)

/-- `compute_metrics(task)` of `main.py`: the bare `except` handler stores
`None`, `None`, `'N/A'`. -/
def compute_metrics_main (task : Row) : Row :=
  match bodyMain task with
  | .ok v =>
    setKey (setKey (setKey task "time_to_resolve_days" v.1) "delay_days" v.2.1) "sla_met" v.2.2
  | .error _ =>
    setKey (setKey (setKey task "time_to_resolve_days" Value.none)
      "delay_days" Value.none) "sla_met" (Value.str "N/A".data)

/-- The `assignee` object of a raw issue (only `displayName` is read). -/
structure Assignee where
  displayName : Option PyStr
deriving DecidableEq, Repr

/-- An object carrying a `name` field (`status`, `issuetype`, `priority`);
the scripts read it as `fields.get(k, {}).get('name')`. -/
structure NamedObj where
  name : Option PyStr
deriving DecidableEq, Repr

/-- A raw issue as consumed by `get_project_issues`: the selected fields of
the JSON record. `parentSummary` stands for
`parent['fields']['summary']` when the parent and its `fields` are present. -/
structure RawIssue where
  key : Option PyStr
  assignee : Option Assignee
  summary : Option PyStr
  issuetype : Option NamedObj
  status : Option NamedObj
  priority : Option NamedObj
  created : Option PyStr
  statuscategorychangedate : Option PyStr
  duedate : Option PyStr
  resolutiondate : Option PyStr
  updated : Option PyStr
  labels : List PyStr
  parentSummary : Option PyStr
deriving DecidableEq, Repr

/-- A Python value that is either a string or `None`. -/
def optVal (o : Option PyStr) : Value :=
  match o with
  | some s => Value.str s
  | Option.none => Value.none

/-- `', '.join(labels)`. -/
def joinLabels (ls : List PyStr) : PyStr :=
  List.intercalate [',', ' '] ls

/-- `text.replace(',', ' ')`. -/
def replaceCommas (s : PyStr) : PyStr :=
  s.map (fun c => if c = ',' then ' ' else c)

/-- The task dict built per issue by `get_project_issues` in `main.py`
(before `compute_metrics` runs): raw date strings, no sanitizing, and
`is_closed` compared against the status text `'Done'`. -/
def buildTaskMain (projectName : PyStr) (issue : RawIssue) (a : Assignee) : Row :=
  fun k =>
    if k = "assignee_name" then some (optVal a.displayName)
    else if k = "project_name" then some (Value.str projectName)
    else if k = "issue_key" then some (optVal issue.key)
    else if k = "issue_summary" then some (optVal issue.summary)
    else if k = "issue_type" then some (optVal (issue.issuetype.bind NamedObj.name))
    else if k = "status" then some (optVal (issue.status.bind NamedObj.name))
    else if k = "priority" then some (optVal (issue.priority.bind NamedObj.name))
    else if k = "created_date" then some (optVal issue.created)
    else if k = "start_date" then some (optVal issue.statuscategorychangedate)
    else if k = "due_date" then some (optVal issue.duedate)
    else if k = "resolved_date" then some (optVal issue.resolutiondate)
    else if k = "is_closed" then
      some (Value.bool (decide (issue.status.bind NamedObj.name = some ("Done".data))))
    else if k = "last_updated" then some (optVal issue.updated)
    else if k = "labels" then some (Value.str (joinLabels issue.labels))
    else Option.none

/-- The task dict built per issue by `get_project_issues` in
`25thJuly2025.py`: sanitized text, formatted dates, comma-stripped
summaries, and `is_closed = bool(raw_resolved)`. -/
def buildTask25 (projectName : PyStr) (issue : RawIssue) (a : Assignee) : Row :=
  fun k =>
    if k = "assignee_name" then some (Value.str (remove_emojis a.displayName))
    else if k = "project_name" then some (Value.str (remove_emojis (some projectName)))
    else if k = "issue_key" then some (optVal issue.key)
    else if k = "issue_summary" then
      some (Value.str (replaceCommas (remove_emojis issue.summary)))
    else if k = "issue_type" then
      some (Value.str (remove_emojis (issue.issuetype.bind NamedObj.name)))
    else if k = "status" then
      some (Value.str (remove_emojis (issue.status.bind NamedObj.name)))
    else if k = "priority" then
      some (Value.str (remove_emojis (issue.priority.bind NamedObj.name)))
    else if k = "created_date" then some (Value.str (format_date25 issue.created))
    else if k = "start_date" then
      some (Value.str (format_date25 issue.statuscategorychangedate))
    else if k = "due_date" then some (Value.str (format_date25 issue.duedate))
    else if k = "resolved_date" then some (Value.str (format_date25 issue.resolutiondate))
    else if k = "is_closed" then some (Value.bool (truthyStr issue.resolutiondate))
    else if k = "last_updated" then some (Value.str (format_date25 issue.updated))
    else if k = "labels" then
      some (Value.str (remove_emojis (some (joinLabels issue.labels))))
    else if k = "parent_summary" then
      some (Value.str (replaceCommas (remove_emojis issue.parentSummary)))
    else if k = "remarks" then some (Value.str [])
    else Option.none

/-- The task dict built per issue by `get_project_issues` in
`1stJuly2025.py` (like the 25thJuly variant but without the comma
replacement, and dates go through its own `format_date`). -/
def buildTask1 (projectName : PyStr) (issue : RawIssue) (a : Assignee) : Row :=
  fun k =>
    if k = "assignee_name" then some (Value.str (remove_emojis a.displayName))
    else if k = "project_name" then some (Value.str (remove_emojis (some projectName)))
    else if k = "issue_key" then some (optVal issue.key)
    else if k = "issue_summary" then some (Value.str (remove_emojis issue.summary))
    else if k = "issue_type" then
      some (Value.str (remove_emojis (issue.issuetype.bind NamedObj.name)))
    else if k = "status" then
      some (Value.str (remove_emojis (issue.status.bind NamedObj.name)))
    else if k = "priority" then
      some (Value.str (remove_emojis (issue.priority.bind NamedObj.name)))
    else if k = "created_date" then some (Value.str (format_date1 issue.created))
    else if k = "start_date" then
      some (Value.str (format_date1 issue.statuscategorychangedate))
    else if k = "due_date" then some (Value.str (format_date1 issue.duedate))
    else if k = "resolved_date" then some (Value.str (format_date1 issue.resolutiondate))
    else if k = "is_closed" then some (Value.bool (truthyStr issue.resolutiondate))
    else if k = "last_updated" then some (Value.str (format_date1 issue.updated))
    else if k = "labels" then
      some (Value.str (remove_emojis (some (joinLabels issue.labels))))
    else if k = "parent_summary" then some (Value.str (remove_emojis issue.parentSummary))
    else if k = "remarks" then some (Value.str [])
    else Option.none

/-- The Python falsiness test `if not assignee` on a parsed JSON object:
`None` (or an absent field) is falsy. -/
def hasAssignee (issue : RawIssue) : Bool := issue.assignee.isSome

/-- The row-mapping loop of `get_project_issues` in `25thJuly2025.py`:
skip issues without an assignee, otherwise build the task dict and run
`compute_metrics` on the raw date strings. -/
def rowsFromIssues25 (projectName : PyStr) : List RawIssue → List Row
  | [] => []
  | issue :: rest =>
    match issue.assignee with
    | Option.none => rowsFromIssues25 projectName rest
    | some a =>
      compute_metrics_25 (buildTask25 projectName issue a)
          issue.created issue.resolutiondate issue.duedate
        :: rowsFromIssues25 projectName rest

/-- The row-mapping loop of `get_project_issues` in `1stJuly2025.py`. -/
def rowsFromIssues1 (projectName : PyStr) : List RawIssue → List Row
  | [] => []
  | issue :: rest =>
    match issue.assignee with
    | Option.none => rowsFromIssues1 projectName rest
    | some a =>
      compute_metrics_1 (buildTask1 projectName issue a)
          issue.created issue.resolutiondate issue.duedate
        :: rowsFromIssues1 projectName rest

/-- The pagination loop of `get_project_issues` (`main.py` lines 57–73,
`25thJuly2025.py` lines 110–125): request the page at `startAt`, stop on an
empty page, accumulate, stop on a page shorter than 100, else advance the
offset by 100. `server` maps an offset to the page the endpoint returns,
and the result pairs the list of requested offsets with the accumulated
issues (`none` if the loop does not finish within `fuel` requests). -/
def pageLoop (server : Nat → List RawIssue) : Nat → Nat → Option (List Nat × List RawIssue)
  | 0, _ => Option.none
  | fuel + 1, startAt =>
    let issues := server startAt
    if issues = [] then some ([startAt], [])
    else if issues.length < 100 then some ([startAt], issues)
    else (pageLoop server fuel (startAt + 100)).map
      (fun pr => (startAt :: pr.1, issues ++ pr.2))

/-- A project as enumerated by `get_projects`. -/
structure Project where
  key : PyStr
  name : PyStr
deriving DecidableEq, Repr

/-- The placeholder row appended by `run_all_projects` (identical dict
literal in `1stJuly2025.py` and `25thJuly2025.py`) for a project whose
issue fetch returned no tasks. -/
def placeholderTask (projectName : PyStr) : Row :=
  fun k =>
    if k = "remarks" then some (Value.str "No task/epic created".data)
    else if k = "project_name" then some (Value.str (remove_emojis (some projectName)))
    else if k = "assignee_name" ∨ k = "issue_key" ∨ k = "issue_summary" ∨
        k = "issue_type" ∨ k = "status" ∨ k = "priority" ∨ k = "created_date" ∨
        k = "start_date" ∨ k = "due_date" ∨ k = "resolved_date" ∨ k = "is_closed" ∨
        k = "last_updated" ∨ k = "labels" ∨ k = "parent_summary" ∨
        k = "time_to_resolve_days" ∨ k = "delay_days" ∨ k = "sla_met" then
      some (Value.str [])
    else Option.none

/-- The keys of the placeholder dict literal other than `remarks` and
`project_name`. -/
def placeholderEmptyKeys : List String :=
  ["assignee_name", "issue_key", "issue_summary", "issue_type", "status", "priority",
   "created_date", "start_date", "due_date", "resolved_date", "is_closed",
   "last_updated", "labels", "parent_summary", "time_to_resolve_days", "delay_days",
   "sla_met"]

/-- The per-project loop of `run_all_projects` (`1stJuly2025.py` lines
191–207, `25thJuly2025.py` lines 193–211): fetch the project's tasks inside
a `try`; on success append the tasks, or the placeholder when there are
none; on an exception append nothing for that project. `fetch` abstracts
`get_project_issues` together with its possible network failure. -/
def run_all_projects (fetch : Project → Except Unit (List Row)) (projects : List Project) :
    List Row :=
  projects.foldl
    (fun acc p =>
      match fetch p with
      | .ok tasks => acc ++ (if tasks.isEmpty then [placeholderTask p.name] else tasks)
      | .error _ => acc)
    []

/-- The contribution of a single project to the combined report. -/
def projectContribution (fetch : Project → Except Unit (List Row)) (p : Project) :
    List Row :=
  match fetch p with
  | .ok tasks => if tasks.isEmpty then [placeholderTask p.name] else tasks
  | .error _ => []

/-- Modelled from the spec's SLA verdict table (§4.3): `Yes` when both
instants are present and resolved ≤ due, `No` when both are present and
resolved > due, `N/A` when either is absent. Stated on naive instants,
compared by their timeline value. -/
def slaSpecVerdict (resolved due : Option PyDateTime) : PyStr :=
  match resolved, due with
  | some r, some d => if microsNaive r ≤ microsNaive d then "Yes".data else "No".data
  | _, _ => "N/A".data

/-- The day-difference value produced by the July scripts on naive
operands: an integer day count when both are present, `''` otherwise. -/
def subValNaive (a b : Option PyDateTime) : Value :=
  match a, b with
  | some x, some y => Value.int (daysOf (microsNaive x - microsNaive y))
  | _, _ => Value.str []

/-- A raw issue with every optional field absent. -/
def blankIssue : RawIssue :=
  ⟨Option.none, Option.none, Option.none, Option.none, Option.none, Option.none,
   Option.none, Option.none, Option.none, Option.none, Option.none, [], Option.none⟩

/-- A task dict as `main.py` would have built it for an issue whose
`resolutiondate` is `None` while `duedate` carries a full offset timestamp. -/
def c1Task : Row :=
  fun k =>
    if k = "created_date" then some (Value.str "2024-01-01T00:00:00.000+0000".data)
    else if k = "resolved_date" then some Value.none
    else if k = "due_date" then some (Value.str "2024-01-03T00:00:00.000+0000".data)
    else Option.none

/-- An issue that is resolved (it has a `resolutiondate`) but whose status
text is not `'Done'`. -/
def c2Issue : RawIssue :=
  { blankIssue with
    assignee := some ⟨some "Bob".data⟩,
    status := some ⟨some "In Progress".data⟩,
    resolutiondate := some "2024-01-05T00:00:00.000+0000".data }

/-- An issue with an assignee and full `Z`-marked timestamps. -/
def c6Issue : RawIssue :=
  { blankIssue with
    assignee := some ⟨some "Ann".data⟩,
    created := some "2024-01-01T00:00:00.000Z".data,
    resolutiondate := some "2024-01-05T00:00:00.000Z".data,
    duedate := some "2024-01-03".data }

/-- An issue endpoint serving pages of sizes 100, 100, 0 at offsets
0, 100, 200. -/
def srvEx : Nat → List RawIssue :=
  fun off => if off < 200 then List.replicate 100 blankIssue else []

/-- A project whose name survives sanitization. -/
def c8Project : Project := ⟨"K".data, "ABC".data⟩

example : strptimeDate ("2024-01-03".data) =
    some ⟨2024, 1, 3, 0, 0, 0, 0, Option.none⟩ := by decide

example : strptimeISOfz ("2024-01-01T00:00:00.000+0530".data) =
    some ⟨2024, 1, 1, 0, 0, 0, 0, some 330⟩ := by decide

example : strptimeISOfZ ("2024-01-05T10:20:30.5Z".data) =
    some ⟨2024, 1, 5, 10, 20, 30, 500000, Option.none⟩ := by decide

example : strptimeDate ("2024-02-30".data) = Option.none := by decide

example : parse_jira_date25 (some ("2024-01-01T00:00:00.000+0530".data)) =
    some ⟨2024, 1, 1, 0, 0, 0, 0, Option.none⟩ := by decide

example : parse_jira_date1 (some ("2024-01-01T00:00:00.000+0530".data)) =
    some ⟨2024, 1, 1, 0, 0, 0, 0, some 330⟩ := by decide

example : format_date25 (some ("2024-01-05T10:20:30.5Z".data)) = "2024-01-05".data := by
  decide

example : remove_emojis (some ("ab😀é!".data)) = "ab!".data := by decide

example :
    (parse_jira_date25 (some ("2024-01-05T00:00:00.000Z".data))).bind
      (fun r => (parse_jira_date25 (some ("2024-01-01T00:00:00.000Z".data))).bind
        (fun c => (dtSub r c).map daysOf)) = some 4 := by decide

example :
    body25 (some ("2024-01-01T00:00:00.000Z".data))
      (some ("2024-01-05T00:00:00.000Z".data)) (some ("2024-01-03".data)) =
    .ok (Value.int 4, Value.int 2, Value.str "No".data) := by rfl

example :
    bodyMain (fun k =>
      if k = "created_date" then some (Value.str "2024-01-01T00:00:00.000+0000".data)
      else if k = "resolved_date" then some Value.none
      else if k = "due_date" then some (Value.str "2024-01-03T00:00:00.000+0000".data)
      else Option.none) =
    .ok (Value.none, Value.none, Value.str "No".data) := by rfl

example :
    body1 (some ("2024-01-01T00:00:00.000Z".data))
      (some ("2024-01-05T00:00:00.000+0530".data)) (some ("2024-01-03".data)) =
    .error () := by rfl

theorem setKey_same (t : Row) (k : String) (v : Value) : setKey t k v k = some v := by
  simp [setKey]

theorem setKey_other (t : Row) (k q : String) (v : Value) (h : q ≠ k) :
    setKey t k v q = t q := by
  simp [setKey, h]

theorem strptimeISOfZ_naive (s : PyStr) (dt : PyDateTime) (h : strptimeISOfZ s = some dt) :
    dt.tzOffMin = Option.none := by
  unfold strptimeISOfZ at h
  simp only [Option.bind_eq_some] at h
  obtain ⟨p, -, r, -, q, -, r2, -, fr, -, h⟩ := h
  split at h
  · cases h; rfl
  · cases h

theorem strptimeISO_naive (s : PyStr) (dt : PyDateTime) (h : strptimeISO s = some dt) :
    dt.tzOffMin = Option.none := by
  unfold strptimeISO at h
  simp only [Option.bind_eq_some] at h
  obtain ⟨p, -, r, -, q, -, h⟩ := h
  split at h
  · cases h; rfl
  · cases h

theorem strptimeDate_naive (s : PyStr) (dt : PyDateTime) (h : strptimeDate s = some dt) :
    dt.tzOffMin = Option.none := by
  unfold strptimeDate at h
  simp only [Option.bind_eq_some] at h
  obtain ⟨p, -, h⟩ := h
  split at h
  · cases h; rfl
  · cases h

theorem strptimeISOfz_aware (s : PyStr) (dt : PyDateTime) (h : strptimeISOfz s = some dt) :
    ∃ off : Int, dt.tzOffMin = some off := by
  unfold strptimeISOfz at h
  simp only [Option.bind_eq_some] at h
  obtain ⟨p, -, r, -, q, -, r2, -, fr, -, tz, -, h⟩ := h
  split at h
  · cases h; exact ⟨tz.1, rfl⟩
  · cases h

theorem parse25_naive (x : Option PyStr) (dt : PyDateTime)
    (h : parse_jira_date25 x = some dt) : dt.tzOffMin = Option.none := by
  cases x with
  | none => cases h
  | some s =>
    simp only [parse_jira_date25] at h
    by_cases he : s = []
    · simp [he] at h
    · rw [if_neg he] at h
      by_cases hT : s.contains 'T'
      · rw [if_pos hT] at h
        by_cases hZ : endsWithZ s
        · rw [if_pos hZ] at h
          exact strptimeISOfZ_naive s dt h
        · rw [if_neg hZ] at h
          by_cases hP : (s.contains '+' || decide (countColons s > 2)) = true
          · rw [if_pos hP] at h
            obtain ⟨a, -, ha⟩ := Option.map_eq_some.mp h
            rw [← ha]
            rfl
          · rw [if_neg hP] at h
            exact strptimeISO_naive s dt h
      · rw [if_neg hT] at h
        exact strptimeDate_naive s dt h

theorem ebind_ok {α β : Type} (a : α) (f : α → Except Unit β) :
    Bind.bind (Except.ok a : Except Unit α) f = f a := rfl

theorem ebind_err {α β : Type} (f : α → Except Unit β) :
    Bind.bind (Except.error () : Except Unit α) f = Except.error () := rfl

theorem epure_eq {α : Type} (a : α) : (Pure.pure a : Except Unit α) = Except.ok a := rfl

theorem subDays_naive (a b : Option PyDateTime)
    (ha : ∀ x, a = some x → x.tzOffMin = Option.none)
    (hb : ∀ x, b = some x → x.tzOffMin = Option.none) :
    subDays (Value.str []) a b = .ok (subValNaive a b) := by
  cases a with
  | none => cases b <;> rfl
  | some x =>
    cases b with
    | none => rfl
    | some y => simp [subDays, dtSub, subValNaive, ha x rfl, hb y rfl]

theorem sla25_naive (a b : Option PyDateTime)
    (ha : ∀ x, a = some x → x.tzOffMin = Option.none)
    (hb : ∀ x, b = some x → x.tzOffMin = Option.none) :
    sla25 a b = .ok (Value.str (slaSpecVerdict a b)) := by
  cases a with
  | none => cases b <;> rfl
  | some x =>
    cases b with
    | none => rfl
    | some y =>
      simp [sla25, dtLe, dtSub, ha x rfl, hb y rfl, slaSpecVerdict, sub_nonpos]

theorem body25_eq (rc rr rd : Option PyStr) :
    body25 rc rr rd = Except.ok
      (subValNaive (parse_jira_date25 rr) (parse_jira_date25 rc),
       subValNaive (parse_jira_date25 rr) (parse_jira_date25 rd),
       Value.str (slaSpecVerdict (parse_jira_date25 rr) (parse_jira_date25 rd))) := by
  have hC := fun x hx => parse25_naive rc x hx
  have hR := fun x hx => parse25_naive rr x hx
  have hD := fun x hx => parse25_naive rd x hx
  simp only [body25, subDays_naive _ _ hR hC, subDays_naive _ _ hR hD,
    sla25_naive _ _ hR hD, ebind_ok, epure_eq]

theorem compute25_preserves (task : Row) (rc rr rd : Option PyStr) (k : String)
    (h1 : k ≠ "time_to_resolve_days") (h2 : k ≠ "delay_days") (h3 : k ≠ "sla_met") :
    compute_metrics_25 task rc rr rd k = task k := by
  unfold compute_metrics_25
  cases body25 rc rr rd with
  | ok v => simp [setKey, h1, h2, h3]
  | error e => simp [setKey, h1, h2, h3]

theorem compute1_preserves (task : Row) (rc rr rd : Option PyStr) (k : String)
    (h1 : k ≠ "time_to_resolve_days") (h2 : k ≠ "delay_days") (h3 : k ≠ "sla_met") :
    compute_metrics_1 task rc rr rd k = task k := by
  unfold compute_metrics_1
  cases body1 rc rr rd with
  | ok v => simp [setKey, h1, h2, h3]
  | error e => simp [setKey, h1, h2, h3]

theorem computeMain_preserves (task : Row) (k : String)
    (h1 : k ≠ "time_to_resolve_days") (h2 : k ≠ "delay_days") (h3 : k ≠ "sla_met") :
    compute_metrics_main task k = task k := by
  unfold compute_metrics_main
  cases bodyMain task with
  | ok v => simp [setKey, h1, h2, h3]
  | error e => simp [setKey, h1, h2, h3]

/-- C1, amended part: in the `25thJuly2025.py` variant, `sla_met` follows the
claimed verdict table exactly — `"Yes"` iff both resolved and due parse and
resolved ≤ due, `"No"` iff both parse and resolved > due, `"N/A"` iff either
fails to parse (all parses are naive there, so no comparison can raise). -/
theorem c1_sla_verdict_25 (task : Row) (rawC rawR rawD : Option PyStr) :
    compute_metrics_25 task rawC rawR rawD "sla_met" =
      some (Value.str (slaSpecVerdict (parse_jira_date25 rawR) (parse_jira_date25 rawD))) := by
  unfold compute_metrics_25
  rw [body25_eq]
  exact setKey_same _ _ _

/-- C1 counterexample: in `main.py`, a task whose `resolved_date` is `None`
while `due_date` holds a parseable offset timestamp gets `sla_met = 'No'`,
not `'N/A'` as the claim requires. -/
theorem c1_counterexample :
    compute_metrics_main c1Task "sla_met" = some (Value.str "No".data) ∧
    c1Task "resolved_date" = some Value.none ∧
    (strptimeISOfz "2024-01-03T00:00:00.000+0000".data).isSome = true ∧
    Value.str "No".data ≠ Value.str "N/A".data := by
  refine ⟨by decide, by decide, by decide, by decide⟩

/-- C10: `compute_metrics` (all three variants) changes no key of the task
dict other than `time_to_resolve_days`, `delay_days` and `sla_met`, on the
success path and on the exception path alike. -/
theorem c10_frame (task : Row) (k : String) (rc rr rd : Option PyStr)
    (h1 : k ≠ "time_to_resolve_days") (h2 : k ≠ "delay_days") (h3 : k ≠ "sla_met") :
    compute_metrics_main task k = task k ∧
    compute_metrics_25 task rc rr rd k = task k ∧
    compute_metrics_1 task rc rr rd k = task k :=
  ⟨computeMain_preserves task k h1 h2 h3,
   compute25_preserves task rc rr rd k h1 h2 h3,
   compute1_preserves task rc rr rd k h1 h2 h3⟩

theorem c10_frame_witness :
    compute_metrics_main (fun _ => Option.none) "status" =
      (fun (_ : String) => (Option.none : Option Value)) "status" ∧
    compute_metrics_25 (fun _ => Option.none) Option.none Option.none Option.none "status" =
      (fun (_ : String) => (Option.none : Option Value)) "status" ∧
    compute_metrics_1 (fun _ => Option.none) Option.none Option.none Option.none "status" =
      (fun (_ : String) => (Option.none : Option Value)) "status" :=
  c10_frame (fun _ => Option.none) "status" Option.none Option.none Option.none
    (by decide) (by decide) (by decide)

/-- C2, amended part: in `25thJuly2025.py` and `1stJuly2025.py`, every
emitted row's `is_closed` equals the truthiness of the issue's raw
`resolutiondate`, and `is_closed` does not depend on the status text. -/
theorem c2_is_closed (pn : PyStr) (issues : List RawIssue) :
    (∀ r ∈ rowsFromIssues25 pn issues, ∃ i ∈ issues,
       hasAssignee i = true ∧
       r "is_closed" = some (Value.bool (truthyStr i.resolutiondate))) ∧
    (∀ r ∈ rowsFromIssues1 pn issues, ∃ i ∈ issues,
       hasAssignee i = true ∧
       r "is_closed" = some (Value.bool (truthyStr i.resolutiondate))) ∧
    (∀ (i : RawIssue) (a : Assignee) (st1 st2 : Option NamedObj),
       buildTask25 pn { i with status := st1 } a "is_closed" =
         buildTask25 pn { i with status := st2 } a "is_closed" ∧
       buildTask1 pn { i with status := st1 } a "is_closed" =
         buildTask1 pn { i with status := st2 } a "is_closed") := by
  refine ⟨?_, ?_, ?_⟩
  · induction issues with
    | nil => intro r hr; simp [rowsFromIssues25] at hr
    | cons i rest ih =>
      intro r hr
      cases ha : i.assignee with
      | none =>
        simp only [rowsFromIssues25, ha] at hr
        obtain ⟨j, hj, hja, hjr⟩ := ih r hr
        exact ⟨j, List.mem_cons_of_mem i hj, hja, hjr⟩
      | some a =>
        simp only [rowsFromIssues25, ha] at hr
        rcases List.mem_cons.mp hr with h | h
        · refine ⟨i, List.mem_cons_self i rest, by simp [hasAssignee, ha], ?_⟩
          rw [h, compute25_preserves _ _ _ _ _ (by decide) (by decide) (by decide)]
          rfl
        · obtain ⟨j, hj, hja, hjr⟩ := ih r h
          exact ⟨j, List.mem_cons_of_mem i hj, hja, hjr⟩
  · induction issues with
    | nil => intro r hr; simp [rowsFromIssues1] at hr
    | cons i rest ih =>
      intro r hr
      cases ha : i.assignee with
      | none =>
        simp only [rowsFromIssues1, ha] at hr
        obtain ⟨j, hj, hja, hjr⟩ := ih r hr
        exact ⟨j, List.mem_cons_of_mem i hj, hja, hjr⟩
      | some a =>
        simp only [rowsFromIssues1, ha] at hr
        rcases List.mem_cons.mp hr with h | h
        · refine ⟨i, List.mem_cons_self i rest, by simp [hasAssignee, ha], ?_⟩
          rw [h, compute1_preserves _ _ _ _ _ (by decide) (by decide) (by decide)]
          rfl
        · obtain ⟨j, hj, hja, hjr⟩ := ih r h
          exact ⟨j, List.mem_cons_of_mem i hj, hja, hjr⟩
  · intro i a st1 st2
    exact ⟨rfl, rfl⟩

theorem c2_witness :
    ∃ i ∈ [c6Issue], hasAssignee i = true ∧
      compute_metrics_25 (buildTask25 [] c6Issue ⟨some "Ann".data⟩) c6Issue.created
          c6Issue.resolutiondate c6Issue.duedate "is_closed"
        = some (Value.bool (truthyStr i.resolutiondate)) :=
  (c2_is_closed [] [c6Issue]).1 _ (List.Mem.head _)

/-- C2 counterexample: in `main.py` a row built from an issue that has a
`resolutiondate` but status text `'In Progress'` carries
`is_closed = False`, so `is_closed` there depends on the status text, not
on the presence of a resolution timestamp. -/
theorem c2_counterexample :
    compute_metrics_main (buildTaskMain "P".data c2Issue ⟨some "Bob".data⟩) "is_closed"
      = some (Value.bool false) ∧
    truthyStr c2Issue.resolutiondate = true := by
  exact ⟨by decide, by decide⟩

/-- C3, amended: every successful `parse_jira_date` result of
`25thJuly2025.py` is timezone-naive (in the offset branch the offset is used
for parsing and then stripped), whereas in the offset branch of
`1stJuly2025.py` the parsed value is returned as is, retaining its offset. -/
theorem c3_offset_handling :
    (∀ (x : Option PyStr) (dt : PyDateTime), parse_jira_date25 x = some dt →
       dt.tzOffMin = Option.none) ∧
    (∀ s : PyStr, s.contains 'T' = true → endsWithZ s = false →
       (s.contains '+' || decide (countColons s > 2)) = true →
       parse_jira_date1 (some s) = strptimeISOfz s) := by
  constructor
  · exact parse25_naive
  · intro s hT hZ hP
    have hne : s ≠ [] := by
      intro he
      subst he
      simp [List.contains] at hT
    have hT2 : 'T' ∈ s := by simpa using hT
    have hP2 : '+' ∈ s ∨ 2 < countColons s := by simpa using hP
    simp [parse_jira_date1, hne, hZ, hT2, hP2]

theorem c3_witness :
    parse_jira_date25 (some "2024-01-01T00:00:00.000+0530".data) =
      some ⟨2024, 1, 1, 0, 0, 0, 0, Option.none⟩ ∧
    (PyDateTime.mk 2024 1 1 0 0 0 0 Option.none).tzOffMin = Option.none ∧
    parse_jira_date1 (some "2024-01-01T00:00:00.000+0530".data) =
      strptimeISOfz "2024-01-01T00:00:00.000+0530".data :=
  ⟨by decide,
   c3_offset_handling.1 (some "2024-01-01T00:00:00.000+0530".data) _ (by decide),
   c3_offset_handling.2 "2024-01-01T00:00:00.000+0530".data
     (by decide) (by decide) (by decide)⟩

/-- C3 counterexample: `1stJuly2025.py` returns a timezone-aware value (the
+05:30 offset is retained, 330 minutes), so its parse result is not
normalized to a naive instant. -/
theorem c3_counterexample :
    parse_jira_date1 (some "2024-01-01T00:00:00.000+0530".data) =
      some ⟨2024, 1, 1, 0, 0, 0, 0, some 330⟩ ∧
    (PyDateTime.mk 2024 1 1 0 0 0 0 (some 330)).tzOffMin ≠ Option.none :=
  ⟨by decide, by decide⟩

/-- C5: null/empty date inputs parse to `None`, and whenever `parse` fails
(any malformed value, modelled by a `None` parse result) the corresponding
`format_date` returns the empty string; both functions are total, so no
error escapes this boundary. -/
theorem c5_parse_null_malformed :
    parse_jira_date25 Option.none = Option.none ∧
    parse_jira_date25 (some []) = Option.none ∧
    parse_jira_date1 Option.none = Option.none ∧
    parse_jira_date1 (some []) = Option.none ∧
    (∀ x : Option PyStr, parse_jira_date25 x = Option.none → format_date25 x = []) ∧
    (∀ x : Option PyStr, parse_jira_date1 x = Option.none → format_date1 x = []) := by
  refine ⟨rfl, rfl, rfl, rfl, ?_, ?_⟩
  · intro x h
    simp [format_date25, h]
  · intro x h
    cases x with
    | none => rfl
    | some s =>
      by_cases he : s = []
      · simp [format_date1, he]
      · simp [format_date1, he, h]

theorem c5_witness :
    format_date25 (some "not-a-date".data) = [] ∧
    format_date1 (some "not-a-date".data) = [] :=
  ⟨c5_parse_null_malformed.2.2.2.2.1 (some "not-a-date".data) (by decide),
   c5_parse_null_malformed.2.2.2.2.2 (some "not-a-date".data) (by decide)⟩

theorem remove_emojis_ascii (x : Option PyStr) :
    ∀ c ∈ remove_emojis x, c.toNat < 128 := by
  intro c hc
  cases x with
  | none => simp [remove_emojis] at hc
  | some s =>
    simp only [remove_emojis] at hc
    by_cases he : s = []
    · rw [if_pos he] at hc
      simp at hc
    · rw [if_neg he] at hc
      have := List.mem_filter.mp hc
      simpa using this.2

theorem ascii_not_emoji (c : Char) (h : c.toNat < 128) : inEmojiRanges c = false := by
  simp only [inEmojiRanges, decide_eq_false_iff_not]
  omega

/-- C9: `remove_emojis` is idempotent — applied to its own output (for any
string-or-null input) it returns that output unchanged. -/
theorem c9_sanitize_idempotent (x : Option PyStr) :
    remove_emojis (some (remove_emojis x)) = remove_emojis x := by
  have hall : ∀ c ∈ remove_emojis x, c.toNat < 128 := remove_emojis_ascii x
  by_cases h : remove_emojis x = []
  · rw [h]
    rfl
  · have h1 : (remove_emojis x).filter (fun c => !(inEmojiRanges c)) = remove_emojis x :=
      List.filter_eq_self.mpr (fun a ha => by
        rw [ascii_not_emoji a (hall a ha)]
        rfl)
    have h2 : (remove_emojis x).filter (fun c => decide (c.toNat < 128)) = remove_emojis x :=
      List.filter_eq_self.mpr (fun a ha => by simp [hall a ha])
    calc remove_emojis (some (remove_emojis x))
        = ((remove_emojis x).filter (fun c => !(inEmojiRanges c))).filter
            (fun c => decide (c.toNat < 128)) := by
          generalize hR : remove_emojis x = R at h
          simp only [remove_emojis]
          rw [if_neg h]
      _ = remove_emojis x := by rw [h1, h2]

/-- C6: the row loops of the July variants emit exactly one row per issue
with a non-null assignee: the output length equals the count of issues with
an assignee, is bounded by the number of raw issues, and is strictly
smaller as soon as one fetched issue lacks an assignee. -/
theorem c6_assignee_filter (pn : PyStr) (issues : List RawIssue) :
    (rowsFromIssues25 pn issues).length =
      (issues.filter (fun i => hasAssignee i)).length ∧
    (rowsFromIssues1 pn issues).length =
      (issues.filter (fun i => hasAssignee i)).length ∧
    (rowsFromIssues25 pn issues).length ≤ issues.length ∧
    (rowsFromIssues1 pn issues).length ≤ issues.length ∧
    ((∃ i ∈ issues, i.assignee = Option.none) →
      (rowsFromIssues25 pn issues).length < issues.length ∧
      (rowsFromIssues1 pn issues).length < issues.length) := by
  have h25all : ∀ l : List RawIssue, (rowsFromIssues25 pn l).length =
      (l.filter (fun i => hasAssignee i)).length := by
    intro l
    induction l with
    | nil => rfl
    | cons i rest ih =>
      cases ha : i.assignee with
      | none => simp [rowsFromIssues25, List.filter, ha, hasAssignee, ih]
      | some a => simp [rowsFromIssues25, List.filter, ha, hasAssignee, ih]
  have h1all : ∀ l : List RawIssue, (rowsFromIssues1 pn l).length =
      (l.filter (fun i => hasAssignee i)).length := by
    intro l
    induction l with
    | nil => rfl
    | cons i rest ih =>
      cases ha : i.assignee with
      | none => simp [rowsFromIssues1, List.filter, ha, hasAssignee, ih]
      | some a => simp [rowsFromIssues1, List.filter, ha, hasAssignee, ih]
  have h25 := h25all issues
  have h1 := h1all issues
  have hle := issues.length_filter_le (fun i => hasAssignee i)
  refine ⟨h25, h1, by omega, by omega, ?_⟩
  intro hex
  have hlt : (issues.filter (fun i => hasAssignee i)).length < issues.length := by
    refine List.length_filter_lt_length_iff_exists.mpr ?_
    obtain ⟨i, hi, hnone⟩ := hex
    exact ⟨i, hi, by simp [hasAssignee, hnone]⟩
  omega

theorem c6_witness :
    (rowsFromIssues25 [] [blankIssue]).length < [blankIssue].length ∧
    (rowsFromIssues1 [] [blankIssue]).length < [blankIssue].length :=
  (c6_assignee_filter [] [blankIssue]).2.2.2.2 ⟨blankIssue, List.Mem.head _, rfl⟩

theorem pageLoop_spec (server : Nat → List RawIssue) :
    ∀ (k start fuel : Nat),
      (∀ i, i < k → (server (start + 100 * i)).length = 100) →
      (server (start + 100 * k)).length < 100 →
      k < fuel →
      ∃ collected, pageLoop server fuel start =
        some ((List.range (k + 1)).map (fun i => start + 100 * i), collected) := by
  intro k
  induction k with
  | zero =>
    intro start fuel hfull hshort hfuel
    cases fuel with
    | zero => omega
    | succ f =>
      have hs : (server start).length < 100 := by simpa using hshort
      by_cases hempty : server start = []
      · refine ⟨[], ?_⟩
        simp only [pageLoop]
        rw [if_pos hempty]
        rfl
      · refine ⟨server start, ?_⟩
        simp only [pageLoop]
        rw [if_neg hempty, if_pos hs]
        rfl
  | succ k ih =>
    intro start fuel hfull hshort hfuel
    cases fuel with
    | zero => omega
    | succ f =>
      have h0 : (server start).length = 100 := by simpa using hfull 0 (Nat.succ_pos k)
      have hne : server start ≠ [] := by
        intro he
        rw [he] at h0
        simp at h0
      have hnlt : ¬ (server start).length < 100 := by omega
      obtain ⟨col, hcol⟩ := ih (start + 100) f
        (fun i hi => by
          have hh := hfull (i + 1) (by omega)
          have harith : start + 100 * (i + 1) = start + 100 + 100 * i := by ring
          rwa [harith] at hh)
        (by
          have harith : start + 100 * (k + 1) = start + 100 + 100 * k := by ring
          rwa [harith] at hshort)
        (by omega)
      refine ⟨server start ++ col, ?_⟩
      simp only [pageLoop]
      rw [if_neg hne, if_neg hnlt, hcol]
      simp only [Option.map_some']
      have hoff : start :: (List.range (k + 1)).map (fun i => start + 100 + 100 * i) =
          (List.range (k + 2)).map (fun i => start + 100 * i) := by
        conv_rhs => rw [show k + 2 = (k + 1) + 1 from rfl, List.range_succ_eq_map,
          List.map_cons, List.map_map]
        refine List.cons_eq_cons.mpr ⟨?_, ?_⟩
        · show start = start + 100 * 0
          omega
        · refine List.map_congr_left ?_
          intro a ha
          show start + 100 + 100 * a = start + 100 * (a + 1)
          omega
      rw [← hoff]

/-- C7: the pagination loop requests pages of fixed size 100 at offsets
0, 100, 200, …, advancing by 100 after each full page, and stops with the
first page that is shorter than 100 (an empty page included): if the first
`k` pages are full and page `k` is short, exactly `k + 1` offsets are
requested. In particular page sizes `[100, 100, 37]` or `[100, 100, 0]`
give exactly 3 requests. -/
theorem c7_pagination (server : Nat → List RawIssue) (k fuel : Nat)
    (hfull : ∀ i, i < k → (server (100 * i)).length = 100)
    (hshort : (server (100 * k)).length < 100)
    (hfuel : k < fuel) :
    ∃ collected, pageLoop server fuel 0 =
      some ((List.range (k + 1)).map (fun i => 100 * i), collected) := by
  have h := pageLoop_spec server k 0 fuel (by simpa using hfull) (by simpa using hshort) hfuel
  simpa using h

theorem c7_witness :
    ∃ collected, pageLoop srvEx 3 0 = some ([0, 100, 200], collected) := by
  obtain ⟨c, hc⟩ := c7_pagination srvEx 2 3 (by decide) (by decide) (by decide)
  exact ⟨c, hc⟩

theorem run_all_foldl (fetch : Project → Except Unit (List Row)) :
    ∀ (projects : List Project) (acc : List Row),
      projects.foldl
        (fun acc p =>
          match fetch p with
          | .ok tasks => acc ++ (if tasks.isEmpty then [placeholderTask p.name] else tasks)
          | .error _ => acc) acc
      = acc ++ projects.flatMap (projectContribution fetch) := by
  intro projects
  induction projects with
  | nil =>
    intro acc
    simp
  | cons p ps ih =>
    intro acc
    simp only [List.foldl_cons, List.flatMap_cons]
    cases hf : fetch p with
    | ok tasks =>
      rw [ih]
      simp [projectContribution, hf, List.append_assoc]
    | error e =>
      rw [ih]
      simp [projectContribution, hf]

/-- C8, amended: the combined report is the concatenation of per-project
contributions; a project whose fetch succeeds with zero tasks contributes
exactly one placeholder row, whose `remarks` is `'No task/epic created'`,
whose `project_name` is the sanitized project name (not empty), and whose
remaining fields are all empty. A project whose fetch raises contributes
no row at all. -/
theorem c8_placeholder (fetch : Project → Except Unit (List Row)) (projects : List Project) :
    run_all_projects fetch projects = projects.flatMap (projectContribution fetch) ∧
    (∀ p : Project, fetch p = .ok [] →
      projectContribution fetch p = [placeholderTask p.name]) ∧
    (∀ p : Project, fetch p = .error () → projectContribution fetch p = []) ∧
    (∀ name : PyStr,
      placeholderTask name "remarks" = some (Value.str "No task/epic created".data) ∧
      placeholderTask name "project_name" = some (Value.str (remove_emojis (some name)))) ∧
    (∀ (name : PyStr) (k : String), k ∈ placeholderEmptyKeys →
      placeholderTask name k = some (Value.str [])) := by
  refine ⟨?_, ?_, ?_, ?_, ?_⟩
  · unfold run_all_projects
    rw [run_all_foldl]
    simp
  · intro p hf
    simp [projectContribution, hf]
  · intro p hf
    simp [projectContribution, hf]
  · intro name
    exact ⟨rfl, rfl⟩
  · intro name k hk
    simp only [placeholderEmptyKeys, List.mem_cons, List.not_mem_nil, or_false] at hk
    rcases hk with rfl|rfl|rfl|rfl|rfl|rfl|rfl|rfl|rfl|rfl|rfl|rfl|rfl|rfl|rfl|rfl|rfl <;>
      rfl

theorem c8_witness :
    run_all_projects (fun _ => Except.ok []) [c8Project] =
      [c8Project].flatMap (projectContribution (fun _ => Except.ok [])) ∧
    projectContribution (fun _ => Except.ok ([] : List Row)) c8Project =
      [placeholderTask c8Project.name] ∧
    placeholderTask "ABC".data "remarks" = some (Value.str "No task/epic created".data) ∧
    placeholderTask "ABC".data "status" = some (Value.str []) := by
  obtain ⟨h1, h2, h3, h4, h5⟩ := c8_placeholder (fun _ => Except.ok []) [c8Project]
  exact ⟨h1, h2 c8Project rfl, (h4 "ABC".data).1, h5 "ABC".data "status" (by decide)⟩

/-- C8 counterexample: a project whose fetch raises contributes zero output
rows (so not every enumerated project contributes a row), and the
placeholder row's `project_name` holds the sanitized project name `'ABC'`,
which is not empty — contradicting "every other field is empty". -/
theorem c8_counterexample :
    run_all_projects (fun _ => Except.error ()) [c8Project] = [] ∧
    run_all_projects (fun _ => Except.ok []) [c8Project] = [placeholderTask "ABC".data] ∧
    placeholderTask "ABC".data "project_name" = some (Value.str "ABC".data) ∧
    Value.str "ABC".data ≠ Value.str [] := by
  refine ⟨rfl, rfl, by decide, by decide⟩

theorem ebind_eq_ok {α β : Type} (x : Except Unit α) (f : α → Except Unit β) (b : β) :
    Bind.bind x f = Except.ok b ↔ ∃ a, x = Except.ok a ∧ f a = Except.ok b := by
  cases x with
  | ok a => simp [ebind_ok]
  | error e => cases e; simp [ebind_err]

theorem subDays_ok (e : Value) (a b : Option PyDateTime) (v : Value)
    (h : subDays e a b = .ok v) :
    (v = e ∧ (a = Option.none ∨ b = Option.none)) ∨
    (∃ x y δ, a = some x ∧ b = some y ∧ dtSub x y = some δ ∧ v = Value.int (daysOf δ)) := by
  cases a with
  | none =>
    cases b with
    | none =>
      left
      refine ⟨?_, Or.inl rfl⟩
      cases h
      rfl
    | some y =>
      left
      refine ⟨?_, Or.inl rfl⟩
      cases h
      rfl
  | some x =>
    cases b with
    | none =>
      left
      refine ⟨?_, Or.inr rfl⟩
      cases h
      rfl
    | some y =>
      right
      simp only [subDays] at h
      cases hs : dtSub x y with
      | none =>
        rw [hs] at h
        cases h
      | some δ =>
        rw [hs] at h
        cases h
        exact ⟨x, y, δ, rfl, rfl, hs, rfl⟩

theorem body1_ok (rc rr rd : Option PyStr) (v : Value × Value × Value)
    (h : body1 rc rr rd = .ok v) :
    subDays (Value.str []) (parse_jira_date1 rr) (parse_jira_date1 rc) = .ok v.1 ∧
    subDays (Value.str []) (parse_jira_date1 rr) (parse_jira_date1 rd) = .ok v.2.1 ∧
    sla1 (parse_jira_date1 rr) (parse_jira_date1 rd) = .ok v.2.2 := by
  simp only [body1] at h
  obtain ⟨t, ht, h⟩ := (ebind_eq_ok _ _ _).mp h
  obtain ⟨d, hd, h⟩ := (ebind_eq_ok _ _ _).mp h
  obtain ⟨sv, hs, h⟩ := (ebind_eq_ok _ _ _).mp h
  rw [epure_eq] at h
  cases h
  exact ⟨ht, hd, hs⟩

theorem bodyMain_ok (task : Row) (v : Value × Value × Value)
    (h : bodyMain task = .ok v) :
    ∃ created resolved due,
      mainField task "created_date" = .ok created ∧
      mainField task "resolved_date" = .ok resolved ∧
      mainField task "due_date" = .ok due ∧
      subDays Value.none resolved created = .ok v.1 ∧
      subDays Value.none resolved due = .ok v.2.1 ∧
      slaMain resolved due = .ok v.2.2 := by
  simp only [bodyMain] at h
  obtain ⟨c, hc, h⟩ := (ebind_eq_ok _ _ _).mp h
  obtain ⟨r, hr, h⟩ := (ebind_eq_ok _ _ _).mp h
  obtain ⟨d, hd, h⟩ := (ebind_eq_ok _ _ _).mp h
  obtain ⟨t, ht, h⟩ := (ebind_eq_ok _ _ _).mp h
  obtain ⟨dd, hdd, h⟩ := (ebind_eq_ok _ _ _).mp h
  obtain ⟨sv, hs, h⟩ := (ebind_eq_ok _ _ _).mp h
  rw [epure_eq] at h
  cases h
  exact ⟨c, r, d, hc, hr, hd, ht, hdd, hs⟩

theorem compute25_ttr_lookup (task : Row) (rc rr rd : Option PyStr) :
    compute_metrics_25 task rc rr rd "time_to_resolve_days" =
      some (subValNaive (parse_jira_date25 rr) (parse_jira_date25 rc)) := by
  unfold compute_metrics_25
  rw [body25_eq]
  simp [setKey]

theorem compute25_dd_lookup (task : Row) (rc rr rd : Option PyStr) :
    compute_metrics_25 task rc rr rd "delay_days" =
      some (subValNaive (parse_jira_date25 rr) (parse_jira_date25 rd)) := by
  unfold compute_metrics_25
  rw [body25_eq]
  simp [setKey]

theorem compute1_ttr_lookup (task : Row) (rc rr rd : Option PyStr) :
    compute_metrics_1 task rc rr rd "time_to_resolve_days" =
      some (match body1 rc rr rd with
            | .ok v => v.1
            | .error _ => Value.str []) := by
  unfold compute_metrics_1
  cases body1 rc rr rd with
  | ok v =>
    simp [setKey]
  | error e =>
    simp [setKey]

theorem compute1_dd_lookup (task : Row) (rc rr rd : Option PyStr) :
    compute_metrics_1 task rc rr rd "delay_days" =
      some (match body1 rc rr rd with
            | .ok v => v.2.1
            | .error _ => Value.str []) := by
  unfold compute_metrics_1
  cases body1 rc rr rd with
  | ok v =>
    simp [setKey]
  | error e =>
    simp [setKey]

theorem computeMain_ttr_lookup (task : Row) :
    compute_metrics_main task "time_to_resolve_days" =
      some (match bodyMain task with
            | .ok v => v.1
            | .error _ => Value.none) := by
  unfold compute_metrics_main
  cases bodyMain task with
  | ok v =>
    simp [setKey]
  | error e =>
    simp [setKey]

theorem computeMain_dd_lookup (task : Row) :
    compute_metrics_main task "delay_days" =
      some (match bodyMain task with
            | .ok v => v.2.1
            | .error _ => Value.none) := by
  unfold compute_metrics_main
  cases bodyMain task with
  | ok v =>
    simp [setKey]
  | error e =>
    simp [setKey]

/-- C4: in all three variants, each day-count metric is the variant's empty
value (`''` in the July scripts, `None` in `main.py`) whenever either of its
operands is missing or unparsable — never zero or a numeric sentinel — and
it is an integer only when both of its operand timestamps parsed
successfully (`time_to_resolve_days` from resolved and created,
`delay_days` from resolved and due). -/
theorem c4_day_metrics (task : Row) (rc rr rd : Option PyStr) :
    (((parse_jira_date25 rr = Option.none ∨ parse_jira_date25 rc = Option.none) →
        compute_metrics_25 task rc rr rd "time_to_resolve_days" = some (Value.str [])) ∧
     ((parse_jira_date25 rr = Option.none ∨ parse_jira_date25 rd = Option.none) →
        compute_metrics_25 task rc rr rd "delay_days" = some (Value.str [])) ∧
     (∀ n : Int, compute_metrics_25 task rc rr rd "time_to_resolve_days" =
          some (Value.int n) →
        (parse_jira_date25 rr).isSome = true ∧ (parse_jira_date25 rc).isSome = true) ∧
     (∀ n : Int, compute_metrics_25 task rc rr rd "delay_days" = some (Value.int n) →
        (parse_jira_date25 rr).isSome = true ∧ (parse_jira_date25 rd).isSome = true)) ∧
    (((parse_jira_date1 rr = Option.none ∨ parse_jira_date1 rc = Option.none) →
        compute_metrics_1 task rc rr rd "time_to_resolve_days" = some (Value.str [])) ∧
     ((parse_jira_date1 rr = Option.none ∨ parse_jira_date1 rd = Option.none) →
        compute_metrics_1 task rc rr rd "delay_days" = some (Value.str [])) ∧
     (∀ n : Int, compute_metrics_1 task rc rr rd "time_to_resolve_days" =
          some (Value.int n) →
        (parse_jira_date1 rr).isSome = true ∧ (parse_jira_date1 rc).isSome = true) ∧
     (∀ n : Int, compute_metrics_1 task rc rr rd "delay_days" = some (Value.int n) →
        (parse_jira_date1 rr).isSome = true ∧ (parse_jira_date1 rd).isSome = true)) ∧
    (((¬ (∃ dt, mainField task "resolved_date" = Except.ok (some dt)) ∨
       ¬ (∃ dt, mainField task "created_date" = Except.ok (some dt))) →
        compute_metrics_main task "time_to_resolve_days" = some Value.none) ∧
     ((¬ (∃ dt, mainField task "resolved_date" = Except.ok (some dt)) ∨
       ¬ (∃ dt, mainField task "due_date" = Except.ok (some dt))) →
        compute_metrics_main task "delay_days" = some Value.none) ∧
     (∀ n : Int, compute_metrics_main task "time_to_resolve_days" = some (Value.int n) →
        (∃ dt, mainField task "resolved_date" = Except.ok (some dt)) ∧
        (∃ dt, mainField task "created_date" = Except.ok (some dt))) ∧
     (∀ n : Int, compute_metrics_main task "delay_days" = some (Value.int n) →
        (∃ dt, mainField task "resolved_date" = Except.ok (some dt)) ∧
        (∃ dt, mainField task "due_date" = Except.ok (some dt)))) := by
  refine ⟨⟨?_, ?_, ?_, ?_⟩, ⟨?_, ?_, ?_, ?_⟩, ⟨?_, ?_, ?_, ?_⟩⟩
  · intro h
    rw [compute25_ttr_lookup]
    rcases h with h | h
    · rw [h]
      cases parse_jira_date25 rc <;> rfl
    · rw [h]
      cases parse_jira_date25 rr <;> rfl
  · intro h
    rw [compute25_dd_lookup]
    rcases h with h | h
    · rw [h]
      cases parse_jira_date25 rd <;> rfl
    · rw [h]
      cases parse_jira_date25 rr <;> rfl
  · intro n hn
    rw [compute25_ttr_lookup] at hn
    cases hr : parse_jira_date25 rr with
    | none =>
      rw [hr] at hn
      cases hc : parse_jira_date25 rc <;> rw [hc] at hn <;> simp [subValNaive] at hn
    | some x =>
      cases hc : parse_jira_date25 rc with
      | none =>
        rw [hr, hc] at hn
        simp [subValNaive] at hn
      | some y => exact ⟨rfl, rfl⟩
  · intro n hn
    rw [compute25_dd_lookup] at hn
    cases hr : parse_jira_date25 rr with
    | none =>
      rw [hr] at hn
      cases hd : parse_jira_date25 rd <;> rw [hd] at hn <;> simp [subValNaive] at hn
    | some x =>
      cases hd : parse_jira_date25 rd with
      | none =>
        rw [hr, hd] at hn
        simp [subValNaive] at hn
      | some y => exact ⟨rfl, rfl⟩
  · intro h
    rw [compute1_ttr_lookup]
    cases hb : body1 rc rr rd with
    | error e => rfl
    | ok v =>
      obtain ⟨ht, -, -⟩ := body1_ok rc rr rd v hb
      rcases subDays_ok _ _ _ _ ht with ⟨hv, -⟩ | ⟨x, y, δ, hrx, hcy, -, -⟩
      · show some v.1 = some (Value.str [])
        rw [hv]
      · exfalso
        rcases h with h | h
        · rw [h] at hrx
          cases hrx
        · rw [h] at hcy
          cases hcy
  · intro h
    rw [compute1_dd_lookup]
    cases hb : body1 rc rr rd with
    | error e => rfl
    | ok v =>
      obtain ⟨-, hdd, -⟩ := body1_ok rc rr rd v hb
      rcases subDays_ok _ _ _ _ hdd with ⟨hv, -⟩ | ⟨x, y, δ, hrx, hdy, -, -⟩
      · show some v.2.1 = some (Value.str [])
        rw [hv]
      · exfalso
        rcases h with h | h
        · rw [h] at hrx
          cases hrx
        · rw [h] at hdy
          cases hdy
  · intro n hn
    rw [compute1_ttr_lookup] at hn
    cases hb : body1 rc rr rd with
    | error e =>
      rw [hb] at hn
      simp at hn
    | ok v =>
      rw [hb] at hn
      simp only [Option.some.injEq] at hn
      have hn2 : v.1 = Value.int n := hn
      obtain ⟨ht, -, -⟩ := body1_ok rc rr rd v hb
      rcases subDays_ok _ _ _ _ ht with ⟨hv, -⟩ | ⟨x, y, δ, hrx, hcy, -, -⟩
      · rw [hn2] at hv
        cases hv
      · exact ⟨by rw [hrx]; rfl, by rw [hcy]; rfl⟩
  · intro n hn
    rw [compute1_dd_lookup] at hn
    cases hb : body1 rc rr rd with
    | error e =>
      rw [hb] at hn
      simp at hn
    | ok v =>
      rw [hb] at hn
      simp only [Option.some.injEq] at hn
      have hn2 : v.2.1 = Value.int n := hn
      obtain ⟨-, hdd, -⟩ := body1_ok rc rr rd v hb
      rcases subDays_ok _ _ _ _ hdd with ⟨hv, -⟩ | ⟨x, y, δ, hrx, hdy, -, -⟩
      · rw [hn2] at hv
        cases hv
      · exact ⟨by rw [hrx]; rfl, by rw [hdy]; rfl⟩
  · intro h
    rw [computeMain_ttr_lookup]
    cases hb : bodyMain task with
    | error e => rfl
    | ok v =>
      obtain ⟨c, r, d, hc, hr, hd, ht, -, -⟩ := bodyMain_ok task v hb
      rcases subDays_ok _ _ _ _ ht with ⟨hv, -⟩ | ⟨x, y, δ, hrx, hcy, -, -⟩
      · show some v.1 = some Value.none
        rw [hv]
      · exfalso
        rcases h with h | h
        · exact h ⟨x, by rw [hr, hrx]⟩
        · exact h ⟨y, by rw [hc, hcy]⟩
  · intro h
    rw [computeMain_dd_lookup]
    cases hb : bodyMain task with
    | error e => rfl
    | ok v =>
      obtain ⟨c, r, d, hc, hr, hd, -, hdd, -⟩ := bodyMain_ok task v hb
      rcases subDays_ok _ _ _ _ hdd with ⟨hv, -⟩ | ⟨x, y, δ, hrx, hdy, -, -⟩
      · show some v.2.1 = some Value.none
        rw [hv]
      · exfalso
        rcases h with h | h
        · exact h ⟨x, by rw [hr, hrx]⟩
        · exact h ⟨y, by rw [hd, hdy]⟩
  · intro n hn
    rw [computeMain_ttr_lookup] at hn
    cases hb : bodyMain task with
    | error e =>
      rw [hb] at hn
      simp at hn
    | ok v =>
      rw [hb] at hn
      simp only [Option.some.injEq] at hn
      have hn2 : v.1 = Value.int n := hn
      obtain ⟨c, r, d, hc, hr, hd, ht, -, -⟩ := bodyMain_ok task v hb
      rcases subDays_ok _ _ _ _ ht with ⟨hv, -⟩ | ⟨x, y, δ, hrx, hcy, -, -⟩
      · rw [hn2] at hv
        cases hv
      · exact ⟨⟨x, by rw [hr, hrx]⟩, ⟨y, by rw [hc, hcy]⟩⟩
  · intro n hn
    rw [computeMain_dd_lookup] at hn
    cases hb : bodyMain task with
    | error e =>
      rw [hb] at hn
      simp at hn
    | ok v =>
      rw [hb] at hn
      simp only [Option.some.injEq] at hn
      have hn2 : v.2.1 = Value.int n := hn
      obtain ⟨c, r, d, hc, hr, hd, -, hdd, -⟩ := bodyMain_ok task v hb
      rcases subDays_ok _ _ _ _ hdd with ⟨hv, -⟩ | ⟨x, y, δ, hrx, hdy, -, -⟩
      · rw [hn2] at hv
        cases hv
      · exact ⟨⟨x, by rw [hr, hrx]⟩, ⟨y, by rw [hd, hdy]⟩⟩

theorem c4_witness :
    compute_metrics_25 c1Task (some "2024-01-01".data) Option.none
        (some "2024-01-03".data) "time_to_resolve_days" = some (Value.str []) ∧
    compute_metrics_1 c1Task (some "2024-01-01".data) Option.none
        (some "2024-01-03".data) "delay_days" = some (Value.str []) ∧
    compute_metrics_main c1Task "time_to_resolve_days" = some Value.none := by
  obtain ⟨h25, h1, hm⟩ :=
    c4_day_metrics c1Task (some "2024-01-01".data) Option.none (some "2024-01-03".data)
  refine ⟨h25.1 (Or.inl rfl), h1.2.1 (Or.inl rfl), hm.1 (Or.inl ?_)⟩
  rintro ⟨dt, hdt⟩
  rw [show mainField c1Task "resolved_date" = Except.ok Option.none from rfl] at hdt
  simp at hdt
